import Mathlib

/-!
Shallow embedding of the Job Dispatch & Dynamic Pricing Engine of the
balt-set.ru repository (src/price_calculator.py and the lifecycle /
settlement handlers of src/main.py), with theorems settling the frozen
claims about it.  Money is modelled as exact rationals; Python's `round`
(half to even) is modelled explicitly.
-/

/-- Python round-half-to-even of a rational to an integer, the semantics
of `round(x)` used by `round(x, -1)` and `round(x, 2)` in the source. -/
def roundHalfEven (x : ℚ) : ℤ :=
  let n := ⌊x⌋
  let frac := x - n
  if frac < 1/2 then n
  else if 1/2 < frac then n + 1
  else if n % 2 = 0 then n else n + 1

/-- Python `round(x, -1)`: round to the nearest ten, half to even. -/
def roundToTen (x : ℚ) : ℚ := 10 * (roundHalfEven (x / 10) : ℚ)

/-- Python `round(x, 2)`: round to two decimal places, half to even. -/
def round2 (x : ℚ) : ℚ := (roundHalfEven (x * 100) : ℚ) / 100

/-- ServiceCategory enum of price_calculator.py. -/
inductive ServiceCategory where
  | electrical | plumbing | appliance | general | hvac | emergency
deriving DecidableEq, Repr

/-- Urgency enum of price_calculator.py. -/
inductive Urgency where
  | normal | urgent | emergency
deriving DecidableEq, Repr

/-- TimeOfDay enum of price_calculator.py. -/
inductive TimeOfDay where
  | morning | day | evening | night
deriving DecidableEq, Repr

/-- District enum of price_calculator.py. -/
inductive District where
  | center | leningradsky | moskovsky | oktyabrsky | baltika | svetlogorsk
deriving DecidableEq, Repr

/-- PriceFactors dataclass of price_calculator.py, with its defaults. -/
structure PriceFactors where
  category : ServiceCategory
  urgency : Urgency := .normal
  time_of_day : TimeOfDay := .day
  district : District := .center
  description : String := ""
  estimated_hours : ℚ := 1
  complexity : ℤ := 1
  materials_needed : Bool := false
  high_voltage : Bool := false
  height_work : Bool := false
  outdoors : Bool := false
  outlets : ℤ := 0
  switches : ℤ := 0
  chandeliers : ℤ := 0
  distance_km : ℚ := 0
deriving DecidableEq, Repr

/-- The `base` entry of BASE_PRICES for each category. -/
def basePriceOf : ServiceCategory → ℚ
  | .electrical => 1500
  | .plumbing => 1800
  | .appliance => 2000
  | .general => 1200
  | .hvac => 3000
  | .emergency => 2500

/-- Electrical per-point prices from BASE_PRICES[ELECTRICAL]. -/
def OUTLET_INSTALL : ℚ := 350
def OUTLET_WIRING : ℚ := 850
def SWITCH_INSTALL : ℚ := 300
def SWITCH_WIRING : ℚ := 1500
def CHANDELIER_PRICE : ℚ := 1000

/-- URGENCY_MULTIPLIERS of price_calculator.py. -/
def urgencyMult : Urgency → ℚ
  | .normal => 1
  | .urgent => 3/2
  | .emergency => 2

/-- TIME_MULTIPLIERS of price_calculator.py. -/
def timeMult : TimeOfDay → ℚ
  | .morning => 1
  | .day => 1
  | .evening => 6/5
  | .night => 3/2

/-- DISTRICT_MULTIPLIERS of price_calculator.py. -/
def districtMult : District → ℚ
  | .center => 1
  | .leningradsky => 21/20
  | .moskovsky => 21/20
  | .oktyabrsky => 21/20
  | .baltika => 11/10
  | .svetlogorsk => 6/5

/-- VOLUME_DISCOUNTS list of price_calculator.py: (threshold, discount). -/
def VOLUME_DISCOUNTS : List (ℤ × ℚ) := [(21, 1/5), (11, 3/20), (6, 1/10), (3, 1/20)]

/-- The for-loop of _get_volume_discount: first entry whose threshold is
reached wins, otherwise 0. -/
def getVolumeDiscountAux : List (ℤ × ℚ) → ℤ → ℚ
  | [], _ => 0
  | (m, d) :: rest, total => if total ≥ m then d else getVolumeDiscountAux rest total

namespace PriceCalculator

/-- PriceCalculator._get_volume_discount. -/
def getVolumeDiscount (total_points : ℤ) : ℚ :=
  getVolumeDiscountAux VOLUME_DISCOUNTS total_points

/-- PriceCalculator._get_base_price: category base scaled by complexity,
extra hours, and the four flag surcharges, in source order. -/
def getBasePrice (f : PriceFactors) : ℚ :=
  let base := basePriceOf f.category
  let base := if f.complexity > 1 then base * (1 + ((f.complexity : ℚ) - 1) * (1/5)) else base
  let base := if f.estimated_hours > 1 then base + (f.estimated_hours - 1) * 800 else base
  let base := if f.materials_needed then base * (23/20) else base
  let base := if f.high_voltage then base * (13/10) else base
  let base := if f.height_work then base * (5/4) else base
  let base := if f.outdoors then base * (6/5) else base
  base

/-- PriceCalculator._calculate_points_price: only electrical jobs count
points; wiring surcharges apply when materials are needed. -/
def calculatePointsPrice (f : PriceFactors) : ℚ :=
  if f.category ≠ ServiceCategory.electrical then 0
  else
    let total : ℚ := 0
    let total := total +
      (if f.outlets > 0 then
        (OUTLET_INSTALL + (if f.materials_needed then OUTLET_WIRING else 0)) * (f.outlets : ℚ)
      else 0)
    let total := total +
      (if f.switches > 0 then
        (SWITCH_INSTALL + (if f.materials_needed then SWITCH_WIRING else 0)) * (f.switches : ℚ)
      else 0)
    let total := total +
      (if f.chandeliers > 0 then CHANDELIER_PRICE * (f.chandeliers : ℚ) else 0)
    total

/-- PriceCalculator._calculate_multipliers: the dict of non-unity
multipliers, in insertion order urgency, time_of_day, district, distance. -/
def calculateMultipliers (f : PriceFactors) : List (String × ℚ) :=
  (if urgencyMult f.urgency ≠ 1 then [("urgency", urgencyMult f.urgency)] else []) ++
  (if timeMult f.time_of_day ≠ 1 then [("time_of_day", timeMult f.time_of_day)] else []) ++
  (if districtMult f.district ≠ 1 then [("district", districtMult f.district)] else []) ++
  (if f.distance_km > 10 then [("distance", 1 + (f.distance_km - 10) * (1/50))] else [])

end PriceCalculator

/-- Python str.lower restricted to the character ranges the pricing texts
use: ASCII letters and the Cyrillic block (А..Я and Ё). -/
def pyLowerChar (c : Char) : Char :=
  if 0x41 ≤ c.toNat ∧ c.toNat ≤ 0x5A then Char.ofNat (c.toNat + 0x20)
  else if 0x410 ≤ c.toNat ∧ c.toNat ≤ 0x42F then Char.ofNat (c.toNat + 0x20)
  else if c.toNat = 0x401 then Char.ofNat 0x451
  else c

/-- Scanner for Python str.count: walk the text left to right; `skip`
characters of a just-matched occurrence remain to be stepped over before
matching may resume, which makes the count non-overlapping. -/
def countOccurGo (p : List Char) : List Char → ℕ → ℕ
  | [], _ => 0
  | c :: rest, 0 =>
    if p.isPrefixOf (c :: rest) then 1 + countOccurGo p rest (p.length - 1)
    else countOccurGo p rest 0
  | _ :: rest, skip + 1 => countOccurGo p rest skip

/-- Python str.count: non-overlapping occurrences of `p` in the text,
scanning left to right (`p` is one of the fixed nonempty keywords). -/
def countOccur (p t : List Char) : ℕ := countOccurGo p t 0

/-- Python substring membership `p in t` (for nonempty `p`). -/
def containsSub (p t : List Char) : Bool := countOccur p t ≠ 0

/-- The dict returned by PriceCalculator.calculate (the display-only
`breakdown` sub-dict is not modelled; no claim mentions it). -/
structure PriceResult where
  base_price : ℚ
  points_price : ℚ
  subtotal : ℚ
  total_price : ℚ
  discount_percent : ℚ
  discount_amount : ℚ
  multipliers : List (String × ℚ)
deriving DecidableEq, Repr

namespace PriceCalculator

/-- PriceCalculator.calculate: base + points, multiplied through the
recorded multipliers, minus the volume discount, rounded to tens. -/
def calculate (f : PriceFactors) : PriceResult :=
  let base_price := getBasePrice f
  let points_price := calculatePointsPrice f
  let subtotal := base_price + points_price
  let multipliers := calculateMultipliers f
  let price_with_multipliers := multipliers.foldl (fun acc p => acc * p.2) subtotal
  let total_points := f.outlets + f.switches + f.chandeliers
  let discount_percent := getVolumeDiscount total_points
  let discount_amount := price_with_multipliers * discount_percent
  let final_price := price_with_multipliers - discount_amount
  let final_price := roundToTen final_price
  { base_price := round2 base_price
    points_price := round2 points_price
    subtotal := round2 subtotal
    total_price := round2 final_price
    discount_percent := discount_percent * 100
    discount_amount := round2 discount_amount
    multipliers := multipliers.map (fun p => (p.1, round2 p.2)) }

end PriceCalculator

/-- The PriceFactors that estimate_from_description builds from the text:
category re-classification, urgency keywords, keyword-occurrence item
counts, length-based complexity, high-voltage escalation, hour bumps, and
materials only for normal urgency. -/
def deriveFactors (description : String) (category : String) : PriceFactors :=
  let dl := description.data.map pyLowerChar
  let has := fun (w : String) => containsSub w.data dl
  let service_category : ServiceCategory :=
    if category = "plumbing" ∨ (["кран", "труба", "слив", "сантехника"].any has) then
      .plumbing
    else if category = "appliance" ∨ (["стиральная", "холодильник", "техника"].any has) then
      .appliance
    else if category = "hvac" ∨ (["кондиционер", "вентиляция"].any has) then
      .hvac
    else .electrical
  let urgency : Urgency :=
    if ["срочно", "сейчас", "экстренно", "горит"].any has then
      (if has "экстренно" ∨ has "горит" then .emergency else .urgent)
    else .normal
  let outlets : ℤ := countOccur "розетк".data dl
  let switches : ℤ := countOccur "выключател".data dl
  let chandeliers : ℤ := countOccur "люстр".data dl
  let complexity : ℤ :=
    if description.length > 200 then 3 else if description.length > 100 then 2 else 1
  let high_voltage := ["щит", "автомат", "380", "трёхфазн"].any has
  let complexity := if high_voltage then max complexity 4 else complexity
  let estimated_hours : ℚ := if outlets + switches > 5 then 2 else 1
  let estimated_hours := if complexity ≥ 3 then estimated_hours + 1 else estimated_hours
  { category := service_category
    description := description
    urgency := urgency
    complexity := complexity
    estimated_hours := estimated_hours
    outlets := outlets
    switches := switches
    chandeliers := chandeliers
    high_voltage := high_voltage
    materials_needed := urgency = Urgency.normal }

/-- estimate_from_description of price_calculator.py. -/
def estimate_from_description (description : String) (category : String := "electrical") :
    PriceResult :=
  PriceCalculator.calculate (deriveFactors description category)

/-- The module-level QUICK_TEMPLATES dict, as the initial state of the
shared, mutable template store. -/
def QUICK_TEMPLATES : String → Option PriceFactors := fun name =>
  if name = "outlet_single" then
    some { category := .electrical, description := "Установка одной розетки",
           outlets := 1, materials_needed := false }
  else if name = "outlet_block_3" then
    some { category := .electrical, description := "Установка блока из 3 розеток",
           outlets := 3, materials_needed := true }
  else if name = "chandelier" then
    some { category := .electrical, description := "Установка люстры", chandeliers := 1 }
  else if name = "washing_machine" then
    some { category := .appliance, description := "Подключение стиральной машины",
           estimated_hours := 3/2 }
  else if name = "ac_install" then
    some { category := .hvac, description := "Установка кондиционера",
           estimated_hours := 3, complexity := 3, height_work := true }
  else if name = "emergency_electrical" then
    some { category := .emergency, description := "Экстренный вызов электрика",
           urgency := .emergency }
  else none

/-- The keyword arguments of get_quick_price: each present entry overwrites
the corresponding attribute of the stored template (setattr). -/
structure Overrides where
  category : Option ServiceCategory := none
  urgency : Option Urgency := none
  time_of_day : Option TimeOfDay := none
  district : Option District := none
  description : Option String := none
  estimated_hours : Option ℚ := none
  complexity : Option ℤ := none
  materials_needed : Option Bool := none
  high_voltage : Option Bool := none
  height_work : Option Bool := none
  outdoors : Option Bool := none
  outlets : Option ℤ := none
  switches : Option ℤ := none
  chandeliers : Option ℤ := none
  distance_km : Option ℚ := none
deriving Repr

/-- Apply the present override entries to a PriceFactors record. -/
def applyOverrides (f : PriceFactors) (o : Overrides) : PriceFactors :=
  { category := o.category.getD f.category
    urgency := o.urgency.getD f.urgency
    time_of_day := o.time_of_day.getD f.time_of_day
    district := o.district.getD f.district
    description := o.description.getD f.description
    estimated_hours := o.estimated_hours.getD f.estimated_hours
    complexity := o.complexity.getD f.complexity
    materials_needed := o.materials_needed.getD f.materials_needed
    high_voltage := o.high_voltage.getD f.high_voltage
    height_work := o.height_work.getD f.height_work
    outdoors := o.outdoors.getD f.outdoors
    outlets := o.outlets.getD f.outlets
    switches := o.switches.getD f.switches
    chandeliers := o.chandeliers.getD f.chandeliers
    distance_km := o.distance_km.getD f.distance_km }

/-- get_quick_price of price_calculator.py.  The setattr loop mutates the
template object stored in the module-level dict, so the function is a
state transformer on the template store: it returns the price result and
the store, whose entry for `name` now holds the overridden factors. -/
def get_quick_price (templates : String → Option PriceFactors) (template_name : String)
    (kwargs : Overrides) :
    Except String (PriceResult × (String → Option PriceFactors)) :=
  match templates template_name with
  | none => Except.error ("Неизвестный шаблон: " ++ template_name)
  | some template =>
    let template := applyOverrides template kwargs
    Except.ok (PriceCalculator.calculate template,
      fun n => if n = template_name then some template else templates n)

/-- Job status strings that appear in main.py (the SQL `status` column):
the five statuses accepted by the status endpoints plus the two written by
the depart and arrive handlers. -/
inductive JobStatus where
  | pending | accepted | in_progress | completed | cancelled | on_the_way | arrived
deriving DecidableEq, Repr

/-- The five statuses the generic status endpoint accepts, and the pattern
of the JobStatusUpdate model. -/
def ALLOWED_STATUSES : List JobStatus :=
  [.pending, .accepted, .in_progress, .completed, .cancelled]

/-- A row of the jobs table, restricted to the columns the lifecycle
handlers read or write (timestamps are not modelled; the claims only
depend on status, master binding, reveal flag and location fields). -/
structure Job where
  client_name : String
  client_phone : String
  status : JobStatus
  master_id : Option ℤ
  revealed : Bool
  location_lat : Option ℚ
  location_lon : Option ℚ
  route_url : String
deriving DecidableEq, Repr

/-- A row of the transactions table, as written by process_payment. -/
structure Transaction where
  job_id : ℤ
  amount : ℚ
  payment_method : String
  platform_fee : ℚ
  master_earnings : ℚ
deriving DecidableEq, Repr

/-- The database state the lifecycle handlers act on: the jobs table keyed
by id (AUTOINCREMENT ids below nextId), and the transactions table. -/
structure Store where
  jobs : ℤ → Option Job
  nextId : ℤ
  transactions : List Transaction

/-- Ids at or above the AUTOINCREMENT counter are unused. -/
def StoreWF (db : Store) : Prop := ∀ i, db.nextId ≤ i → db.jobs i = none

/-- HTTPException outcomes of the handlers. -/
inductive ApiError where
  | badRequest (detail : String)
  | notFound (detail : String)
deriving DecidableEq, Repr

/-- Replace the row with the given id. -/
def setJob (db : Store) (id : ℤ) (j : Job) : Store :=
  { db with jobs := fun i => if i = id then some j else db.jobs i }

/-- The fee dict returned by calculate_platform_fee in main.py. -/
structure FeeBreakdown where
  total : ℚ
  payment_gateway_fee : ℚ
  platform_commission : ℚ
  master_earnings : ℚ
deriving DecidableEq, Repr

/-- calculate_platform_fee of main.py: 2 percent gateway fee, then 25
percent platform commission on the remainder, each output rounded to two
decimal places. -/
def calculate_platform_fee (amount : ℚ) : FeeBreakdown :=
  let payment_gateway_fee := amount * (2/100)
  let remaining := amount - payment_gateway_fee
  let platform_commission := remaining * (25/100)
  let master_earnings := remaining - platform_commission
  { total := amount
    payment_gateway_fee := round2 payment_gateway_fee
    platform_commission := round2 platform_commission
    master_earnings := round2 master_earnings }

/-- assign_job_to_master of main.py: the UPDATE is guarded by
`status = 'pending'`; rowcount 0 (missing job or not pending) yields a
400 error and the database is left unchanged. -/
def assign_job_to_master (db : Store) (job_id : ℤ) (master_id : Option ℤ) :
    Except ApiError Store :=
  match db.jobs job_id with
  | some j =>
    if j.status = JobStatus.pending then
      Except.ok (setJob db job_id { j with master_id := master_id, status := .accepted })
    else Except.error (.badRequest "Заказ уже назначен или не найден")
  | none => Except.error (.badRequest "Заказ уже назначен или не найден")

/-- update_job_status of main.py (the generic PATCH endpoint): the new
status must be one of the five allowed strings, and the UPDATE is applied
with no check on the current status and no rowcount check. -/
def update_job_status (db : Store) (job_id : ℤ) (new_status : JobStatus) :
    Except ApiError (Store × JobStatus) :=
  if new_status ∉ ALLOWED_STATUSES then Except.error (.badRequest "Неверный статус")
  else
    Except.ok
      ({ db with jobs := fun i =>
          if i = job_id then (db.jobs i).map (fun j => { j with status := new_status })
          else db.jobs i },
       new_status)

/-- update_job_status of main.py (the terminal variant): the
JobStatusUpdate model validates the status string, the UPDATE is keyed by
job id and master id, and rowcount 0 yields 404; there is again no check
on the current status. -/
def update_job_status_terminal (db : Store) (master_id : ℤ) (job_id : ℤ)
    (new_status : JobStatus) : Except ApiError (Store × JobStatus) :=
  if new_status ∉ ALLOWED_STATUSES then Except.error (.badRequest "Неверный статус")
  else
    match db.jobs job_id with
    | some j =>
      if j.master_id = some master_id then
        Except.ok (setJob db job_id { j with status := new_status }, new_status)
      else Except.error (.notFound "Заказ не найден")
    | none => Except.error (.notFound "Заказ не найден")

/-- process_payment of main.py: the PaymentProcess model validates amount
and method; the handler then unconditionally inserts a transactions row
and sets the job status to completed, with no check that the job exists,
is in progress, or has not been settled before. -/
def process_payment (db : Store) (job_id : ℤ) (amount : ℚ) (payment_method : String) :
    Except ApiError (Store × FeeBreakdown) :=
  if ¬ (0 < amount ∧ payment_method ∈ ["cash", "card", "sbp"]) then
    Except.error (.badRequest "Validation error")
  else
    let fees := calculate_platform_fee amount
    let t : Transaction :=
      { job_id := job_id, amount := amount, payment_method := payment_method,
        platform_fee := fees.platform_commission, master_earnings := fees.master_earnings }
    let db := { db with transactions := db.transactions ++ [t] }
    let db := { db with jobs := (fun i =>
        if i = job_id then (db.jobs i).map (fun j => { j with status := JobStatus.completed })
        else db.jobs i) }
    Except.ok (db, fees)

/-- master_depart of main.py: unconditional UPDATE of departure fields and
status, no rowcount check (a missing job id is silently a no-op). -/
def master_depart (db : Store) (job_id : ℤ) (lat lon : Option ℚ) (route_url : String) :
    Store :=
  { db with jobs := fun i =>
      if i = job_id then
        (db.jobs i).map (fun j =>
          { j with location_lat := lat, location_lon := lon,
                   route_url := route_url, status := .on_the_way })
      else db.jobs i }

/-- master_arrive of main.py: 404 when the job id is unknown, otherwise
sets the reveal flag and the arrived status and returns the client
contact (the calendar call is an external sink and never affects the
database state). -/
def master_arrive (db : Store) (job_id : ℤ) :
    Except ApiError (Store × String × String) :=
  match db.jobs job_id with
  | none => Except.error (.notFound "Заказ не найден")
  | some j =>
    Except.ok (setJob db job_id { j with revealed := true, status := .arrived },
      j.client_name, j.client_phone)

/-- process_client_request of main.py, reduced to its database effect: a
fresh jobs row at the AUTOINCREMENT id, pre-accepted when a master was
found, with the reveal flag at its column default 0. -/
def create_job (db : Store) (client_name client_phone : String) (master_id : Option ℤ) :
    Store × ℤ :=
  let j : Job :=
    { client_name := client_name, client_phone := client_phone,
      status := if master_id.isSome then .accepted else .pending,
      master_id := master_id, revealed := false,
      location_lat := none, location_lon := none, route_url := "" }
  ({ db with jobs := fun i => if i = db.nextId then some j else db.jobs i,
             nextId := db.nextId + 1 },
   db.nextId)

/-- The core operations that touch the jobs or transactions tables. -/
inductive Op where
  | assign (job_id : ℤ) (master_id : Option ℤ)
  | setStatus (job_id : ℤ) (s : JobStatus)
  | setStatusTerminal (master_id job_id : ℤ) (s : JobStatus)
  | payment (job_id : ℤ) (amount : ℚ) (method : String)
  | depart (job_id : ℤ) (lat lon : Option ℚ) (route_url : String)
  | arrive (job_id : ℤ)
  | create (client_name client_phone : String) (master_id : Option ℤ)

/-- Whether an operation is the settlement operation. -/
def Op.isPayment : Op → Bool
  | .payment _ _ _ => true
  | _ => false

/-- Run one operation against the store; a handler that raises leaves the
store unchanged (the failing handlers never reach conn.commit with a
mutation recorded). -/
def step (db : Store) : Op → Store
  | .assign job_id master_id =>
    match assign_job_to_master db job_id master_id with
    | .ok db2 => db2
    | .error _ => db
  | .setStatus job_id s =>
    match update_job_status db job_id s with
    | .ok (db2, _) => db2
    | .error _ => db
  | .setStatusTerminal master_id job_id s =>
    match update_job_status_terminal db master_id job_id s with
    | .ok (db2, _) => db2
    | .error _ => db
  | .payment job_id amount method =>
    match process_payment db job_id amount method with
    | .ok (db2, _) => db2
    | .error _ => db
  | .depart job_id lat lon route_url => master_depart db job_id lat lon route_url
  | .arrive job_id =>
    match master_arrive db job_id with
    | .ok (db2, _, _) => db2
    | .error _ => db
  | .create client_name client_phone master_id =>
    (create_job db client_name client_phone master_id).1

/-- The free-text input of the estimator test sentence. -/
def C3text : String := "Срочно нужно установить 3 розетки и 2 выключателя"

/-- The PriceFactors the estimator derives from C3text (checked by
decidable evaluation in the theorems below). -/
def derivedF : PriceFactors :=
  { category := .electrical, description := C3text, urgency := .urgent,
    complexity := 1, estimated_hours := 1, outlets := 1, switches := 1,
    chandeliers := 0, high_voltage := false, materials_needed := false }

/-- A pending job fixture. -/
def jobP : Job :=
  { client_name := "Анна", client_phone := "+79000000001", status := .pending,
    master_id := none, revealed := false, location_lat := none,
    location_lon := none, route_url := "" }

/-- A store holding the single pending job with id 1. -/
def dbP : Store :=
  { jobs := fun i => if i = 1 then some jobP else none, nextId := 2, transactions := [] }

/-- An in-progress job fixture. -/
def job5 : Job :=
  { client_name := "Олег", client_phone := "+79000000002", status := .in_progress,
    master_id := some 5, revealed := true, location_lat := none,
    location_lon := none, route_url := "" }

/-- A store holding the single in-progress job with id 1. -/
def db5 : Store :=
  { jobs := fun i => if i = 1 then some job5 else none, nextId := 2, transactions := [] }

/-- A revealed job fixture. -/
def jobR : Job :=
  { client_name := "Пётр", client_phone := "+79000000003", status := .arrived,
    master_id := some 5, revealed := true, location_lat := none,
    location_lon := none, route_url := "" }

/-- A store holding the single revealed job with id 1. -/
def dbR : Store :=
  { jobs := fun i => if i = 1 then some jobR else none, nextId := 2, transactions := [] }

/-- The revealed job after a depart overwrite. -/
def jobR2 : Job := { jobR with status := .on_the_way, route_url := "" }

/-- A store with no jobs at all. -/
def dbEmpty : Store := { jobs := fun _ => none, nextId := 1, transactions := [] }

/-- Whether a status-endpoint call returned 200. -/
def statusUpdateOk (r : Except ApiError (Store × JobStatus)) : Bool :=
  match r with
  | .ok _ => true
  | .error _ => false

/-- The stored status of job `i` after a status-endpoint call (none when
the call raised or the job is absent). -/
def statusAfterUpdate (r : Except ApiError (Store × JobStatus)) (i : ℤ) : Option JobStatus :=
  match r with
  | .ok (db, _) => (db.jobs i).map Job.status
  | .error _ => none

/-- The total price a get_quick_price call returned, if it succeeded. -/
def qpPrice (r : Except String (PriceResult × (String → Option PriceFactors))) : Option ℚ :=
  match r with
  | .ok p => some p.1.total_price
  | .error _ => none

/-- The template store after a get_quick_price call (unchanged on error). -/
def qpStore (r : Except String (PriceResult × (String → Option PriceFactors)))
    (fallback : String → Option PriceFactors) : String → Option PriceFactors :=
  match r with
  | .ok p => p.2
  | .error _ => fallback

/-- A get_quick_price call with no keyword arguments. -/
def noOverrides : Overrides := {}

/-- A get_quick_price call overriding the outlets attribute to 2. -/
def ovOutlets2 : Overrides := { outlets := some 2 }

/-- The pending job after a successful assignment to master 7. -/
def jobA : Job := { jobP with master_id := some 7, status := .accepted }

/-- The reveal flag of job `i` after an arrive call, when it succeeded. -/
def arriveOkRevealed (r : Except ApiError (Store × String × String)) (i : ℤ) :
    Option (Option Bool) :=
  match r with
  | .ok (db, _) => some ((db.jobs i).map Job.revealed)
  | .error _ => none

/-- Rounding an integer rational is the identity. -/
theorem roundHalfEven_intCast (n : ℤ) : roundHalfEven (n : ℚ) = n := by
  simp [roundHalfEven]

/-- Rounding to two decimals after rounding to tens changes nothing. -/
theorem round2_roundToTen (x : ℚ) : round2 (roundToTen x) = roundToTen x := by
  unfold round2 roundToTen
  have h : ((10 : ℚ) * (roundHalfEven (x / 10) : ℚ)) * 100 =
      (((1000 * roundHalfEven (x / 10) : ℤ) : ℚ)) := by
    push_cast
    ring
  rw [h, roundHalfEven_intCast]
  push_cast
  ring

/-- The multiplier loop of calculate is multiplication by the product of
the recorded multipliers. -/
theorem foldl_mul_snd (l : List (String × ℚ)) (s : ℚ) :
    l.foldl (fun acc p => acc * p.2) s = s * (l.map Prod.snd).prod := by
  induction l generalizing s with
  | nil => simp
  | cons a t ih =>
    simp only [List.foldl_cons, List.map_cons, List.prod_cons, ih]
    ring

/-- C1: for every PriceFactors input, the total_price returned by
PriceCalculator.calculate equals (base price + installation-point price)
times the product of all recorded multipliers times (1 - volume discount),
rounded to the nearest ten currency units. -/
theorem C1_total_price_formula (f : PriceFactors) :
    (PriceCalculator.calculate f).total_price =
      roundToTen
        ((PriceCalculator.getBasePrice f + PriceCalculator.calculatePointsPrice f) *
          ((PriceCalculator.calculateMultipliers f).map Prod.snd).prod *
          (1 - PriceCalculator.getVolumeDiscount (f.outlets + f.switches + f.chandeliers))) := by
  simp only [PriceCalculator.calculate, round2_roundToTen, foldl_mul_snd]
  congr 1
  ring

/-- C6: the fee split is the fixed cascade gateway fee = 2 percent of the
amount, platform commission = 25 percent of the remainder, master
earnings = the rest, each output rounded to two decimal places; at amount
1000 this yields fee 20, commission 245 and earnings 735. -/
theorem C6_fee_split_cascade :
    (∀ amount : ℚ,
      calculate_platform_fee amount =
        { total := amount
          payment_gateway_fee := round2 (amount * (2/100))
          platform_commission := round2 ((amount - amount * (2/100)) * (25/100))
          master_earnings :=
            round2 ((amount - amount * (2/100)) - (amount - amount * (2/100)) * (25/100)) }) ∧
    calculate_platform_fee 1000 =
      { total := 1000, payment_gateway_fee := 20, platform_commission := 245,
        master_earnings := 735 } := by
  constructor
  · intro amount
    rfl
  · norm_num [calculate_platform_fee, round2, roundHalfEven, Int.floor_eq_iff]

/-- C7: the volume discount of the pricing engine is exactly 0 percent
for at most 2 items, 5 percent for 3 to 5, 10 percent for 6 to 10, 15
percent for 11 to 20 and 20 percent from 21 on, and calculate applies it
once, to the amount obtained after all multipliers. -/
theorem C7_volume_discount_tiers (n : ℤ) (f : PriceFactors) :
    (n ≤ 2 → PriceCalculator.getVolumeDiscount n = 0) ∧
    (3 ≤ n → n ≤ 5 → PriceCalculator.getVolumeDiscount n = 1/20) ∧
    (6 ≤ n → n ≤ 10 → PriceCalculator.getVolumeDiscount n = 1/10) ∧
    (11 ≤ n → n ≤ 20 → PriceCalculator.getVolumeDiscount n = 3/20) ∧
    (21 ≤ n → PriceCalculator.getVolumeDiscount n = 1/5) ∧
    (PriceCalculator.calculate f).discount_amount =
      round2
        (((PriceCalculator.getBasePrice f + PriceCalculator.calculatePointsPrice f) *
            ((PriceCalculator.calculateMultipliers f).map Prod.snd).prod) *
          PriceCalculator.getVolumeDiscount (f.outlets + f.switches + f.chandeliers)) := by
  refine ⟨?_, ?_, ?_, ?_, ?_, ?_⟩
  · intro h
    simp only [PriceCalculator.getVolumeDiscount, VOLUME_DISCOUNTS, getVolumeDiscountAux]
    split_ifs <;> first | rfl | omega
  · intro h1 h2
    simp only [PriceCalculator.getVolumeDiscount, VOLUME_DISCOUNTS, getVolumeDiscountAux]
    split_ifs <;> first | rfl | omega
  · intro h1 h2
    simp only [PriceCalculator.getVolumeDiscount, VOLUME_DISCOUNTS, getVolumeDiscountAux]
    split_ifs <;> first | rfl | omega
  · intro h1 h2
    simp only [PriceCalculator.getVolumeDiscount, VOLUME_DISCOUNTS, getVolumeDiscountAux]
    split_ifs <;> first | rfl | omega
  · intro h
    simp only [PriceCalculator.getVolumeDiscount, VOLUME_DISCOUNTS, getVolumeDiscountAux]
    rw [if_pos h]
  · simp only [PriceCalculator.calculate, foldl_mul_snd]

/-- C7 witness: the boundary values 2, 3, 6, 11 and 21 land in the tiers
the claim names. -/
theorem C7_volume_discount_tiers_witness :
    PriceCalculator.getVolumeDiscount 2 = 0 ∧
    PriceCalculator.getVolumeDiscount 3 = 1/20 ∧
    PriceCalculator.getVolumeDiscount 6 = 1/10 ∧
    PriceCalculator.getVolumeDiscount 11 = 3/20 ∧
    PriceCalculator.getVolumeDiscount 21 = 1/5 :=
  ⟨(C7_volume_discount_tiers 2 derivedF).1 (by norm_num),
   (C7_volume_discount_tiers 3 derivedF).2.1 (by norm_num) (by norm_num),
   (C7_volume_discount_tiers 6 derivedF).2.2.1 (by norm_num) (by norm_num),
   (C7_volume_discount_tiers 11 derivedF).2.2.2.1 (by norm_num) (by norm_num),
   (C7_volume_discount_tiers 21 derivedF).2.2.2.2.1 (by norm_num)⟩

/-- C3 counterexample: on the input sentence the estimator derives
outlets = 1 (the keyword appears once), not the claimed outlets = 3 and
switches = 2. -/
theorem C3_estimate_counterexample :
    (deriveFactors C3text "electrical").outlets = 1 ∧
    ¬ ((deriveFactors C3text "electrical").outlets = 3 ∧
       (deriveFactors C3text "electrical").switches = 2) := by
  decide

/-- C3 amended: on the input sentence the estimator classifies urgency as
urgent (not emergency), derives outlets = 1 and switches = 1 by counting
keyword occurrences, and prices the job strictly above the same derived
factors with normal urgency. -/
theorem C3_estimate_amended :
    (deriveFactors C3text "electrical").urgency = Urgency.urgent ∧
    (deriveFactors C3text "electrical").outlets = 1 ∧
    (deriveFactors C3text "electrical").switches = 1 ∧
    (PriceCalculator.calculate
        { deriveFactors C3text "electrical" with urgency := Urgency.normal }).total_price <
      (estimate_from_description C3text "electrical").total_price := by
  have hF : deriveFactors C3text "electrical" = derivedF := by decide
  refine ⟨by rw [hF]; rfl, by rw [hF]; rfl, by rw [hF]; rfl, ?_⟩
  rw [estimate_from_description, hF]
  norm_num [PriceCalculator.calculate, PriceCalculator.getBasePrice,
    PriceCalculator.calculatePointsPrice, PriceCalculator.calculateMultipliers,
    PriceCalculator.getVolumeDiscount, getVolumeDiscountAux, VOLUME_DISCOUNTS,
    basePriceOf, urgencyMult, timeMult, districtMult, OUTLET_INSTALL, SWITCH_INSTALL,
    OUTLET_WIRING, SWITCH_WIRING, CHANDELIER_PRICE, roundToTen, round2, roundHalfEven,
    derivedF, List.foldl, Int.floor_eq_iff]

/-- C9: quick-template pricing is stateful: a call overriding outlets on
the shared template changes what a later call with the same template name
and no overrides returns (1850 before, 2200 after), so two runs of the
same call differ depending on earlier calls. -/
theorem C9_quick_price_mutates_templates :
    qpPrice (get_quick_price QUICK_TEMPLATES "outlet_single" noOverrides) = some 1850 ∧
    qpPrice
        (get_quick_price
          (qpStore (get_quick_price QUICK_TEMPLATES "outlet_single" ovOutlets2) QUICK_TEMPLATES)
          "outlet_single" noOverrides) = some 2200 ∧
    qpPrice (get_quick_price QUICK_TEMPLATES "outlet_single" noOverrides) ≠
      qpPrice
        (get_quick_price
          (qpStore (get_quick_price QUICK_TEMPLATES "outlet_single" ovOutlets2) QUICK_TEMPLATES)
          "outlet_single" noOverrides) := by
  norm_num [qpPrice, qpStore, get_quick_price, QUICK_TEMPLATES, applyOverrides, noOverrides,
    ovOutlets2, PriceCalculator.calculate, PriceCalculator.getBasePrice,
    PriceCalculator.calculatePointsPrice, PriceCalculator.calculateMultipliers,
    PriceCalculator.getVolumeDiscount, getVolumeDiscountAux, VOLUME_DISCOUNTS,
    basePriceOf, urgencyMult, timeMult, districtMult, OUTLET_INSTALL, SWITCH_INSTALL,
    OUTLET_WIRING, SWITCH_WIRING, CHANDELIER_PRICE, roundToTen, round2, roundHalfEven,
    List.foldl, Int.floor_eq_iff]

/-- The settlement endpoint is the only operation that changes the
transactions table. -/
theorem step_transactions_eq (db : Store) (op : Op) (h : op.isPayment = false) :
    (step db op).transactions = db.transactions := by
  cases op with
  | assign jid m =>
    dsimp only [step, assign_job_to_master]
    cases hj : db.jobs jid with
    | none => rfl
    | some j =>
      by_cases hs : j.status = JobStatus.pending
      · simp [hs, setJob]
      · simp [hs]
  | setStatus jid s =>
    dsimp only [step, update_job_status]
    by_cases hs : s ∈ ALLOWED_STATUSES
    · simp [hs]
    · simp [hs]
  | setStatusTerminal mid jid s =>
    dsimp only [step, update_job_status_terminal]
    by_cases hs : s ∈ ALLOWED_STATUSES
    · cases hj : db.jobs jid with
      | none => simp [hs]
      | some j =>
        by_cases hm : j.master_id = some mid
        · simp [hs, hm, setJob]
        · simp [hs, hm]
    · simp [hs]
  | payment jid a m => simp [Op.isPayment] at h
  | depart jid lat lon url => rfl
  | arrive jid =>
    dsimp only [step, master_arrive]
    cases hj : db.jobs jid with
    | none => rfl
    | some j => simp [setJob]
  | create n p m => rfl

theorem step_revealed_mono (db : Store) (op : Op) (hwf : StoreWF db) (id : ℤ) (j j2 : Job)
    (hj : db.jobs id = some j) (hrev : j.revealed = true)
    (hj2 : (step db op).jobs id = some j2) : j2.revealed = true := by
  cases op with
  | assign jid m =>
    dsimp only [step, assign_job_to_master] at hj2
    cases hjj : db.jobs jid with
    | none =>
      rw [hjj] at hj2
      try dsimp only at hj2
      rw [hj] at hj2
      cases hj2
      exact hrev
    | some jd =>
      rw [hjj] at hj2
      try dsimp only at hj2
      by_cases hs : jd.status = JobStatus.pending
      · rw [if_pos hs] at hj2
        dsimp only [setJob] at hj2
        by_cases hid : id = jid
        · rw [if_pos hid] at hj2
          cases hj2
          rw [hid, hjj] at hj
          cases hj
          exact hrev
        · rw [if_neg hid] at hj2
          rw [hj] at hj2
          cases hj2
          exact hrev
      · rw [if_neg hs] at hj2
        try dsimp only at hj2
        rw [hj] at hj2
        cases hj2
        exact hrev
  | setStatus jid s =>
    dsimp only [step, update_job_status] at hj2
    by_cases hs : s ∈ ALLOWED_STATUSES
    · rw [if_neg (not_not_intro hs)] at hj2
      try dsimp only at hj2
      by_cases hid : id = jid
      · rw [if_pos hid] at hj2
        rw [hj] at hj2
        simp only [Option.map] at hj2
        cases hj2
        exact hrev
      · rw [if_neg hid] at hj2
        rw [hj] at hj2
        cases hj2
        exact hrev
    · rw [if_pos hs] at hj2
      try dsimp only at hj2
      rw [hj] at hj2
      cases hj2
      exact hrev
  | setStatusTerminal mid jid s =>
    dsimp only [step, update_job_status_terminal] at hj2
    by_cases hs : s ∈ ALLOWED_STATUSES
    · rw [if_neg (not_not_intro hs)] at hj2
      cases hjj : db.jobs jid with
      | none =>
        rw [hjj] at hj2
        try dsimp only at hj2
        rw [hj] at hj2
        cases hj2
        exact hrev
      | some jd =>
        rw [hjj] at hj2
        try dsimp only at hj2
        by_cases hm : jd.master_id = some mid
        · rw [if_pos hm] at hj2
          dsimp only [setJob] at hj2
          by_cases hid : id = jid
          · rw [if_pos hid] at hj2
            cases hj2
            rw [hid, hjj] at hj
            cases hj
            exact hrev
          · rw [if_neg hid] at hj2
            rw [hj] at hj2
            cases hj2
            exact hrev
        · rw [if_neg hm] at hj2
          try dsimp only at hj2
          rw [hj] at hj2
          cases hj2
          exact hrev
    · rw [if_pos hs] at hj2
      try dsimp only at hj2
      rw [hj] at hj2
      cases hj2
      exact hrev
  | payment jid a m =>
    dsimp only [step, process_payment] at hj2
    by_cases hv : 0 < a ∧ m ∈ ["cash", "card", "sbp"]
    · rw [if_neg (not_not_intro hv)] at hj2
      try dsimp only at hj2
      by_cases hid : id = jid
      · rw [if_pos hid] at hj2
        rw [hj] at hj2
        simp only [Option.map] at hj2
        cases hj2
        exact hrev
      · rw [if_neg hid] at hj2
        rw [hj] at hj2
        cases hj2
        exact hrev
    · rw [if_pos hv] at hj2
      try dsimp only at hj2
      rw [hj] at hj2
      cases hj2
      exact hrev
  | depart jid lat lon url =>
    dsimp only [step, master_depart] at hj2
    by_cases hid : id = jid
    · rw [if_pos hid] at hj2
      rw [hj] at hj2
      simp only [Option.map] at hj2
      cases hj2
      exact hrev
    · rw [if_neg hid] at hj2
      rw [hj] at hj2
      cases hj2
      exact hrev
  | arrive jid =>
    dsimp only [step, master_arrive] at hj2
    cases hjj : db.jobs jid with
    | none =>
      rw [hjj] at hj2
      try dsimp only at hj2
      rw [hj] at hj2
      cases hj2
      exact hrev
    | some jd =>
      rw [hjj] at hj2
      dsimp only [setJob] at hj2
      by_cases hid : id = jid
      · rw [if_pos hid] at hj2
        cases hj2
        rfl
      · rw [if_neg hid] at hj2
        rw [hj] at hj2
        cases hj2
        exact hrev
  | create n p m =>
    dsimp only [step, create_job] at hj2
    by_cases hid : id = db.nextId
    · rw [if_pos hid] at hj2
      rw [hid] at hj
      rw [hwf db.nextId le_rfl] at hj
      cases hj
    · rw [if_neg hid] at hj2
      rw [hj] at hj2
      cases hj2
      exact hrev

/-- A successful arrive call: for any present job it returns 200, flips
the reveal flag, sets the arrived status and returns the client contact. -/
theorem master_arrive_ok (db : Store) (id : ℤ) (j : Job) (hj : db.jobs id = some j) :
    master_arrive db id =
      Except.ok (setJob db id { j with revealed := true, status := JobStatus.arrived },
        j.client_name, j.client_phone) := by
  unfold master_arrive
  rw [hj]

/-- C2 counterexample: on a store whose job 1 is pending, requesting the
status completed succeeds and overwrites the status, instead of being
rejected as an illegal transition. -/
theorem C2_set_status_counterexample :
    statusUpdateOk (update_job_status dbP 1 JobStatus.completed) = true ∧
    statusAfterUpdate (update_job_status dbP 1 JobStatus.completed) 1 =
      some JobStatus.completed ∧
    (dbP.jobs 1).map Job.status = some JobStatus.pending := by
  decide

/-- C2 amended: the generic set-status operation validates only that the
requested status is one of the five allowed statuses; it applies no
transition guard, so any current-to-new pair (including pending to
completed) succeeds, and only a status outside the allowed set is
rejected. -/
theorem C2_set_status_amended (db : Store) (id : ℤ) (s : JobStatus) :
    (s ∈ ALLOWED_STATUSES →
      update_job_status db id s =
        Except.ok
          ({ db with jobs := (fun i =>
              if i = id then (db.jobs i).map (fun j => { j with status := s })
              else db.jobs i) }, s)) ∧
    (s ∉ ALLOWED_STATUSES →
      update_job_status db id s = Except.error (.badRequest "Неверный статус")) := by
  constructor
  · intro h
    unfold update_job_status
    rw [if_neg (not_not_intro h)]
  · intro h
    unfold update_job_status
    rw [if_pos h]

/-- C2 witness: the amended statement at the pending job 1 of dbP and the
requested status completed. -/
theorem C2_set_status_amended_witness :
    update_job_status dbP 1 JobStatus.completed =
      Except.ok
        ({ dbP with jobs := (fun i =>
            if i = 1 then (dbP.jobs i).map (fun j => { j with status := JobStatus.completed })
            else dbP.jobs i) }, JobStatus.completed) :=
  (C2_set_status_amended dbP 1 JobStatus.completed).1 (by decide)

/-- C4: assignment succeeds exactly when the job exists and is pending,
binding the master and setting the accepted status; a job in any other
status, or a missing job, yields the conflict error and (the handler
returning before any commit) the store is unchanged. -/
theorem C4_assign_only_pending (db : Store) (id : ℤ) (m : Option ℤ) :
    (∀ j, db.jobs id = some j → j.status = JobStatus.pending →
      assign_job_to_master db id m =
        Except.ok (setJob db id { j with master_id := m, status := JobStatus.accepted })) ∧
    (∀ j, db.jobs id = some j → j.status ≠ JobStatus.pending →
      assign_job_to_master db id m =
        Except.error (.badRequest "Заказ уже назначен или не найден")) ∧
    (db.jobs id = none →
      assign_job_to_master db id m =
        Except.error (.badRequest "Заказ уже назначен или не найден")) := by
  refine ⟨?_, ?_, ?_⟩
  · intro j hj hs
    unfold assign_job_to_master
    rw [hj]
    dsimp only
    rw [if_pos hs]
  · intro j hj hs
    unfold assign_job_to_master
    rw [hj]
    dsimp only
    rw [if_neg hs]
  · intro hj
    unfold assign_job_to_master
    rw [hj]

/-- C4 witness: assigning the pending job 1 succeeds, and a second assign
on the job (now accepted) is rejected with the conflict error. -/
theorem C4_assign_only_pending_witness :
    assign_job_to_master dbP 1 (some 7) = Except.ok (setJob dbP 1 jobA) ∧
    assign_job_to_master (setJob dbP 1 jobA) 1 (some 8) =
      Except.error (.badRequest "Заказ уже назначен или не найден") :=
  ⟨(C4_assign_only_pending dbP 1 (some 7)).1 jobP rfl rfl,
   (C4_assign_only_pending (setJob dbP 1 jobA) 1 (some 8)).2.1 jobA rfl (by decide)⟩

/-- C10: the generic set-status operation on a job id absent from the
store still reports success for every allowed status, and changes no job
record. -/
theorem C10_set_status_missing_job (db : Store) (id : ℤ) (s : JobStatus)
    (habs : db.jobs id = none) (hs : s ∈ ALLOWED_STATUSES) :
    ∃ db2, update_job_status db id s = Except.ok (db2, s) ∧
      ∀ i, db2.jobs i = db.jobs i := by
  refine ⟨{ db with jobs := (fun i =>
      if i = id then (db.jobs i).map (fun j => { j with status := s }) else db.jobs i) },
    ?_, ?_⟩
  · unfold update_job_status
    rw [if_neg (not_not_intro hs)]
  · intro i
    dsimp only
    by_cases hi : i = id
    · rw [if_pos hi, hi, habs]
      rfl
    · rw [if_neg hi]

/-- C10 witness: setting the status completed on the empty store's job 42
returns 200 and leaves job 42 absent. -/
theorem C10_set_status_missing_job_witness :
    statusUpdateOk (update_job_status dbEmpty 42 JobStatus.completed) = true ∧
    statusAfterUpdate (update_job_status dbEmpty 42 JobStatus.completed) 42 = none := by
  obtain ⟨db2, h1, h2⟩ :=
    C10_set_status_missing_job dbEmpty 42 JobStatus.completed rfl (by decide)
  constructor
  · rw [h1]
    rfl
  · rw [statusAfterUpdate.eq_def, h1]
    simp [h2 42, dbEmpty]

/-- C5 counterexample: settling job 1 of db5 twice yields two transaction
records for the same job, refuting the at-most-one-Transaction-per-job
invariant. -/
theorem C5_settlement_counterexample :
    ((step (step db5 (Op.payment 1 1000 "card")) (Op.payment 1 1000 "card")).transactions.map
      Transaction.job_id) = [1, 1] := by
  decide

/-- C5 amended: transactions are written only by the settlement
operation, but that operation unconditionally appends a fresh transaction
row and marks the job completed regardless of its current status or of
earlier settlements, so repeated settlement accumulates multiple
transactions for one job. -/
theorem C5_settlement_amended :
    (∀ (db : Store) (id : ℤ) (a : ℚ) (m : String), 0 < a → m ∈ ["cash", "card", "sbp"] →
      process_payment db id a m =
        Except.ok
          ({ db with
              transactions := db.transactions ++
                [{ job_id := id, amount := a, payment_method := m,
                   platform_fee := (calculate_platform_fee a).platform_commission,
                   master_earnings := (calculate_platform_fee a).master_earnings }],
              jobs := (fun i =>
                if i = id then
                  (db.jobs i).map (fun j => { j with status := JobStatus.completed })
                else db.jobs i) },
            calculate_platform_fee a)) ∧
    (∀ (db : Store) (op : Op), op.isPayment = false →
      (step db op).transactions = db.transactions) := by
  constructor
  · intro db id a m ha hm
    unfold process_payment
    rw [if_neg (not_not_intro ⟨ha, hm⟩)]
  · exact step_transactions_eq

/-- C5 witness: the amended statement at db5, job 1, amount 1000, method
card, plus transaction-preservation for a non-settlement operation. -/
theorem C5_settlement_amended_witness :
    process_payment db5 1 1000 "card" =
      Except.ok
        ({ db5 with
            transactions := db5.transactions ++
              [{ job_id := 1, amount := 1000, payment_method := "card",
                 platform_fee := (calculate_platform_fee 1000).platform_commission,
                 master_earnings := (calculate_platform_fee 1000).master_earnings }],
            jobs := (fun i =>
              if i = 1 then
                (db5.jobs i).map (fun j => { j with status := JobStatus.completed })
              else db5.jobs i) },
          calculate_platform_fee 1000) ∧
    (step db5 (Op.arrive 1)).transactions = db5.transactions :=
  ⟨C5_settlement_amended.1 db5 1 1000 "card" (by decide) (by decide),
   C5_settlement_amended.2 db5 (Op.arrive 1) rfl⟩

/-- C8: arrival is idempotent (a second arrive on the same job also
returns 200 and leaves the reveal flag true) and the reveal flag is
one-way: no core operation on a well-formed store turns it back off. -/
theorem C8_arrive_idempotent_reveal_monotone :
    (∀ (db : Store) (id : ℤ) (j : Job), db.jobs id = some j →
      ∃ db2 c, master_arrive db id = Except.ok (db2, c) ∧
        (db2.jobs id).map Job.revealed = some true ∧
        ∃ db3 c2, master_arrive db2 id = Except.ok (db3, c2) ∧
          (db3.jobs id).map Job.revealed = some true) ∧
    (∀ (db : Store) (op : Op) (id : ℤ) (j j2 : Job), StoreWF db →
      db.jobs id = some j → j.revealed = true →
      (step db op).jobs id = some j2 → j2.revealed = true) := by
  constructor
  · intro db id j hj
    refine ⟨_, _, master_arrive_ok db id j hj, by simp [setJob], _, _,
      master_arrive_ok _ id { j with revealed := true, status := JobStatus.arrived }
        (by simp [setJob]), by simp [setJob]⟩
  · intro db op id j j2 hwf hj hrev hj2
    exact step_revealed_mono db op hwf id j j2 hj hrev hj2

/-- C8 witness: arriving at the pending job 1 reveals the contact, a
second arrive on an already revealed store also returns the flag true,
and a depart overwrite keeps the flag true. -/
theorem C8_arrive_idempotent_reveal_monotone_witness :
    arriveOkRevealed (master_arrive dbP 1) 1 = some (some true) ∧
    arriveOkRevealed (master_arrive dbR 1) 1 = some (some true) ∧
    ((step dbR (Op.depart 1 none none "")).jobs 1).map Job.revealed = some true := by
  obtain ⟨db2, c, h1, h2, -⟩ :=
    C8_arrive_idempotent_reveal_monotone.1 dbP 1 jobP rfl
  obtain ⟨db2r, cr, h1r, h2r, -⟩ :=
    C8_arrive_idempotent_reveal_monotone.1 dbR 1 jobR rfl
  have hdep : (step dbR (Op.depart 1 none none "")).jobs 1 = some jobR2 := by decide
  have hmono :=
    C8_arrive_idempotent_reveal_monotone.2 dbR (Op.depart 1 none none "") 1 jobR jobR2
      (by
        intro i hi
        simp only [dbR] at hi ⊢
        rw [if_neg (by omega)])
      rfl rfl hdep
  refine ⟨?_, ?_, ?_⟩
  · rw [arriveOkRevealed.eq_def, h1]
    simp [h2]
  · rw [arriveOkRevealed.eq_def, h1r]
    simp [h2r]
  · rw [hdep]
    simp [hmono]
